import Mathlib

/-!
Shallow embedding of `src/prefect/environments/execution/fargate/fargate_task.py`
(class `FargateTaskEnvironment`), and proofs of the specification claims about it.

Python dicts of keyword arguments are embedded as association lists
`List (String × V)` (Python guarantees unique keys for `**kwargs`); the
structured parts of the task-definition payload that `setup` reads and writes
(`containerDefinitions`, the container fields `name`, `image`, `command`,
`environment`) are embedded as records with `Option` fields, where `none`
stands for an absent dict key.  Python truthiness tests (`if not d.get(k)`)
are embedded explicitly: a missing key, an empty string and an empty list are
falsy.  Exceptions are embedded with `Except`; boto3 API calls are embedded as
data (the payloads the code would send), with the describe-call outcome an
input parameter, since the orchestration API is an external collaborator.
-/

namespace FargateTask

/-- One entry of a container `environment` list: a dict
`\x7b"name": ..., "value": ...\x7d` in the Python payload. -/
structure EnvVar where
  name : String
  value : String
deriving DecidableEq, Repr

/-- One container definition dict, restricted to the keys the code reads or
writes (`name`, `image`, `command`, `environment`); `none` is an absent key. -/
structure ContainerDef where
  name : Option String
  image : Option String
  command : Option (List String)
  environment : Option (List EnvVar)
deriving DecidableEq, Repr

/-- The empty dict `\x7b\x7d` appended when no containerDefinitions were given
(fargate_task.py line 232). -/
def emptyContainer : ContainerDef := ⟨none, none, none, none⟩

/-- Python truthiness of `d.get(k)` for a string-valued key: absent or `""` is
falsy. -/
def truthyStr : Option String → Bool
  | none => false
  | some s => !s.isEmpty

/-- Python truthiness of `d.get(k)` for a list-valued key: absent or `[]` is
falsy. -/
def truthyList {α : Type} : Option (List α) → Bool
  | none => false
  | some l => !l.isEmpty

/-- The allow-list `definition_kwarg_list` of `_parse_kwargs`
(fargate_task.py lines 135-151). -/
def definition_kwarg_list : List String :=
  [ "family",
    "taskRoleArn",
    "executionRoleArn",
    "networkMode",
    "containerDefinitions",
    "volumes",
    "placementConstraints",
    "requiresCompatibilities",
    "cpu",
    "memory",
    "tags",
    "pidMode",
    "ipcMode",
    "proxyConfiguration",
    "inferenceAccelerators" ]

/-- The allow-list `run_kwarg_list` of `_parse_kwargs`
(fargate_task.py lines 153-166). -/
def run_kwarg_list : List String :=
  [ "cluster",
    "taskDefinition",
    "count",
    "startedBy",
    "group",
    "placementConstraints",
    "placementStrategy",
    "platformVersion",
    "networkConfiguration",
    "tags",
    "enableECSManagedTags",
    "propagateTags" ]

/-- Embedding of `FargateTaskEnvironment._parse_kwargs` (fargate_task.py
lines 123-178):
each loop keeps exactly the entries of `user_kwargs` whose key is a member of
the corresponding allow-list (`if key in definition_kwarg_list`, resp.
`run_kwarg_list`); since `**kwargs` keys are unique, the dict built by
`update` in iteration order is the order-preserving filter. -/
def parse_kwargs {V : Type} (user_kwargs : List (String × V)) :
    List (String × V) × List (String × V) :=
  (user_kwargs.filter (fun kv => definition_kwarg_list.contains kv.1),
   user_kwargs.filter (fun kv => run_kwarg_list.contains kv.1))

/-- The fixed list `env_values` of standard environment variables built by
`setup` (fargate_task.py lines 211-227); `graphql` stands for
`config.cloud.graphql` and `extraLoggers` for
`str(config.logging.extra_loggers)`, both read from ambient configuration. -/
def stdEnvValues (graphql extraLoggers : String) : List EnvVar :=
  [ ⟨"PREFECT__CLOUD__GRAPHQL", graphql⟩,
    ⟨"PREFECT__CLOUD__USE_LOCAL_SECRETS", "false"⟩,
    ⟨"PREFECT__ENGINE__FLOW_RUNNER__DEFAULT_CLASS",
      "prefect.engine.cloud.CloudFlowRunner"⟩,
    ⟨"PREFECT__ENGINE__TASK_RUNNER__DEFAULT_CLASS",
      "prefect.engine.cloud.CloudTaskRunner"⟩,
    ⟨"PREFECT__LOGGING__LOG_TO_CLOUD", "true"⟩,
    ⟨"PREFECT__LOGGING__EXTRA_LOGGERS", extraLoggers⟩ ]

/-- The fixed command installed on the first container
(fargate_task.py lines 262-266). -/
def flowContainerCommand : List String :=
  [ "/bin/sh", "-c",
    "python -c \x27import prefect; prefect.environments.FargateTaskEnvironment().run_flow()\x27" ]

/-- The per-container step of the loop at fargate_task.py lines 235-238:
`if not definition.get("environment"): definition["environment"] = []` and
then `definition["environment"].extend(env_values)`. -/
def applyEnvValues (ev : List EnvVar) (c : ContainerDef) : ContainerDef :=
  let base := if truthyList c.environment then c.environment.getD [] else []
  { c with environment := some (base ++ ev) }

/-- The head-container rewrites of fargate_task.py lines 241-266: for each of
`name`, `image`, `command`, first a default is installed when the key is falsy
and then the key is unconditionally overwritten with the fixed value. -/
def forceFirstContainer (image : String) (c : ContainerDef) : ContainerDef :=
  let c1 := if truthyStr c.name then c else { c with name := some "" }
  let c2 := { c1 with name := some "flow-container" }
  let c3 := if truthyStr c2.image then c2 else { c2 with image := some "" }
  let c4 := { c3 with image := some image }
  let c5 := if truthyList c4.command then c4 else { c4 with command := some [] }
  let c6 := { c5 with command := some flowContainerCommand }
  c6

/-- The container-synthesis block of the definition-absent branch of `setup`
(fargate_task.py lines 229-266): create `containerDefinitions` as `[\x7b\x7d]`
when it is falsy (absent or empty, lines 230-232), extend every container's
environment (lines 235-238), then force `name`, `image` and `command` on the
first container (lines 241-266; the index-0 access never fails because the
list is non-empty by then). -/
def synthesizeContainerDefs (ev : List EnvVar) (image : String)
    (cds0 : Option (List ContainerDef)) : List ContainerDef :=
  let cds1 := if truthyList cds0 then cds0.getD [] else [emptyContainer]
  let cds2 := cds1.map (applyEnvValues ev)
  match cds2 with
  | [] => []
  | c :: restCds => forceFirstContainer image c :: restCds

/-- An exception raised by a boto3 API call: `clientError code` is a
`botocore.exceptions.ClientError` whose service error code (its "class") is
`code`; `otherError` is any exception that is not a `ClientError`. -/
inductive AwsError where
  | clientError (code : String)
  | otherError (name : String)
deriving DecidableEq, Repr

/-- The stored `task_definition_kwargs` dict as `setup` sees it: the `family`
key (read by the describe call, line 205), the `containerDefinitions` key
(read and written by the synthesis block), and the remaining allow-listed
definition kwargs, which `setup` only passes through to
`register_task_definition`. -/
structure TaskDefKwargs where
  family : Option String
  containerDefinitions : Option (List ContainerDef)
  rest : List (String × String)
deriving DecidableEq, Repr

/-- The state update performed on `self.task_definition_kwargs` by one run of
the definition-absent branch of `setup`; the mutation is in place in Python,
embedded here as returning the updated record. -/
def setupAbsentStep (graphql extraLoggers image : String)
    (kw : TaskDefKwargs) : TaskDefKwargs :=
  let cds := synthesizeContainerDefs (stdEnvValues graphql extraLoggers) image
    kw.containerDefinitions
  { kw with containerDefinitions := some cds }

/-- Embedding of `FargateTaskEnvironment.setup` (fargate_task.py lines
184-268).
`describeResult` is the outcome of the external
`describe_task_definition(taskDefinition=family)` call: `none` on success,
`some e` when it raises `e`.  The `try/except ClientError` at lines 202-208
sets `definition_exists = False` exactly for `ClientError`s; any other
exception propagates.  The result is the updated `task_definition_kwargs`
together with the list of `register_task_definition` payloads sent. -/
def setup (describeResult : Option AwsError) (image graphql extraLoggers : String)
    (kw : TaskDefKwargs) :
    Except AwsError (TaskDefKwargs × List TaskDefKwargs) :=
  match describeResult with
  | some (AwsError.otherError e) => Except.error (AwsError.otherError e)
  | some (AwsError.clientError _) =>
      let kw2 := setupAbsentStep graphql extraLoggers image kw
      Except.ok (kw2, [kw2])
  | none => Except.ok (kw, [])

/-- C1: for every set of passthrough options, the derived task-definition
mapping contains exactly the input entries whose key is in the fixed
definition allow-list, the derived task-run mapping contains exactly the
input entries whose key is in the fixed run allow-list, the shared keys
`tags` and `placementConstraints` are members of both allow-lists (hence
route to both mappings), and a key in neither list lands in neither mapping;
`parse_kwargs` is total, so unrecognized keys are dropped without error. -/
theorem parse_kwargs_routing {V : Type} (kwargs : List (String × V))
    (k : String) (v : V) :
    ((k, v) ∈ (parse_kwargs kwargs).1 ↔
      (k, v) ∈ kwargs ∧ k ∈ definition_kwarg_list) ∧
    ((k, v) ∈ (parse_kwargs kwargs).2 ↔
      (k, v) ∈ kwargs ∧ k ∈ run_kwarg_list) ∧
    "tags" ∈ definition_kwarg_list ∧ "tags" ∈ run_kwarg_list ∧
    "placementConstraints" ∈ definition_kwarg_list ∧
    "placementConstraints" ∈ run_kwarg_list := by
  refine ⟨?_, ?_, by decide, by decide, by decide, by decide⟩ <;>
    simp [parse_kwargs, List.mem_filter]

lemma forceFirstContainer_eq (image : String) (c : ContainerDef) :
    forceFirstContainer image c =
      { c with name := some "flow-container", image := some image,
               command := some flowContainerCommand } := by
  simp only [forceFirstContainer]
  split <;> split <;> split <;> rfl

lemma applyEnvValues_eq (ev : List EnvVar) (c : ContainerDef) :
    applyEnvValues ev c =
      { c with environment := some (c.environment.getD [] ++ ev) } := by
  simp only [applyEnvValues, truthyList]
  cases h : c.environment with
  | none => rfl
  | some l => cases l <;> simp

lemma forceFirst_applyEnv_fields (ev : List EnvVar) (image : String)
    (c : ContainerDef) :
    (forceFirstContainer image (applyEnvValues ev c)).name =
        some "flow-container" ∧
      (forceFirstContainer image (applyEnvValues ev c)).image = some image ∧
      (forceFirstContainer image (applyEnvValues ev c)).command =
        some flowContainerCommand ∧
      (forceFirstContainer image (applyEnvValues ev c)).environment =
        some (c.environment.getD [] ++ ev) := by
  rw [applyEnvValues_eq, forceFirstContainer_eq]
  exact ⟨rfl, rfl, rfl, rfl⟩

lemma firstContainers_nonempty (cds0 : Option (List ContainerDef)) :
    ∃ x xs, (if truthyList cds0 then cds0.getD [] else [emptyContainer]) =
      x :: xs := by
  rcases cds0 with _ | ⟨_ | ⟨x, xs⟩⟩
  · exact ⟨emptyContainer, [], rfl⟩
  · exact ⟨emptyContainer, [], rfl⟩
  · exact ⟨x, xs, by simp [truthyList]⟩

lemma synthesizeContainerDefs_spec (ev : List EnvVar) (image : String)
    (cds0 : Option (List ContainerDef)) :
    ∃ c0 restCds, synthesizeContainerDefs ev image cds0 = c0 :: restCds ∧
      c0.name = some "flow-container" ∧ c0.image = some image ∧
      c0.command = some flowContainerCommand ∧
      ∀ cd ∈ c0 :: restCds, ∃ pre, cd.environment = some (pre ++ ev) := by
  obtain ⟨x, xs, hx⟩ := firstContainers_nonempty cds0
  have hsyn : synthesizeContainerDefs ev image cds0 =
      forceFirstContainer image (applyEnvValues ev x) ::
        xs.map (applyEnvValues ev) := by
    simp only [synthesizeContainerDefs, hx, List.map_cons]
  refine ⟨_, _, hsyn, (forceFirst_applyEnv_fields ev image x).1,
    (forceFirst_applyEnv_fields ev image x).2.1,
    (forceFirst_applyEnv_fields ev image x).2.2.1, ?_⟩
  intro cd hcd
  rcases List.mem_cons.mp hcd with rfl | hcd
  · exact ⟨_, (forceFirst_applyEnv_fields ev image x).2.2.2⟩
  · rcases List.mem_map.mp hcd with ⟨y, _, rfl⟩
    rw [applyEnvValues_eq]
    exact ⟨_, rfl⟩

/-- C2 counterexample: an existence-check failure whose error class is
`AccessDeniedException` — not a not-found class — does not propagate to the
caller of `setup`; it is swallowed by the bare `except ClientError` at
fargate_task.py line 207 and a registration call is issued, contradicting the
claim that only not-found-class errors trigger the registration branch. -/
theorem setup_swallows_access_denied :
    ((setup (some (AwsError.clientError "AccessDeniedException")) "img" "gq"
        "el" ⟨some "fam", none, []⟩).toOption.map (fun p => p.2.length) =
      some 1) ∧
    setup (some (AwsError.clientError "AccessDeniedException")) "img" "gq"
        "el" ⟨some "fam", none, []⟩ ≠
      Except.error (AwsError.clientError "AccessDeniedException") :=
  ⟨rfl, by simp [setup]⟩

/-- C2 amended: the existence check partitions errors by exception class, not
by error code: every `ClientError`, of any code, is treated as "definition
absent" and triggers the registration branch, while every exception that is
not a `ClientError` propagates unchanged to the caller of `setup` without
registration being attempted; a successful describe call registers nothing. -/
theorem setup_error_classification (c e img gq el : String)
    (kw : TaskDefKwargs) :
    (setup (some (AwsError.clientError c)) img gq el kw =
      Except.ok (setupAbsentStep gq el img kw, [setupAbsentStep gq el img kw])) ∧
    (setup (some (AwsError.otherError e)) img gq el kw =
      Except.error (AwsError.otherError e)) ∧
    setup none img gq el kw = Except.ok (kw, []) :=
  ⟨rfl, rfl, rfl⟩

/-- C3: whenever the existence check reports no pre-existing task definition
(it raises a `ClientError`), `setup` leaves the task-definition mapping with a
single `containerDefinitions` list whose first entry has name
`"flow-container"`, image the resolved flow image, and command the fixed
shell invocation, every entry of which has the standard environment variables
appended to its environment list — and issues exactly one registration call
carrying exactly that mapping. -/
theorem setup_registers_synthesized_definition (c img gq el : String)
    (kw : TaskDefKwargs) :
    ∃ c0 restCds,
      setup (some (AwsError.clientError c)) img gq el kw =
        Except.ok ({ kw with containerDefinitions := some (c0 :: restCds) },
          [{ kw with containerDefinitions := some (c0 :: restCds) }]) ∧
      c0.name = some "flow-container" ∧
      c0.image = some img ∧
      c0.command = some flowContainerCommand ∧
      ∀ cd ∈ c0 :: restCds,
        ∃ pre, cd.environment = some (pre ++ stdEnvValues gq el) := by
  obtain ⟨c0, restCds, heq, hname, himg, hcmd, henv⟩ :=
    synthesizeContainerDefs_spec (stdEnvValues gq el) img
      kw.containerDefinitions
  exact ⟨c0, restCds, by simp [setup, setupAbsentStep, heq], hname, himg,
    hcmd, henv⟩

/-- C4: when the existence check succeeds (the describe call returns without
raising, i.e. a task definition for the configured family already exists),
`setup` issues no registration call and returns the stored
task-definition mapping entirely unchanged (and it never touches the task-run
mapping at all). -/
theorem setup_exists_no_registration (img gq el : String) (kw : TaskDefKwargs) :
    setup none img gq el kw = Except.ok (kw, []) := rfl

/-- Runs the definition-absent branch of `setup` `n` times on the same
environment instance (the Python code mutates `self.task_definition_kwargs` in
place, so each run starts from the state the previous run left behind). -/
def iterAbsent (graphql extraLoggers image : String) :
    Nat → TaskDefKwargs → TaskDefKwargs
  | 0, kw => kw
  | Nat.succ n, kw =>
      setupAbsentStep graphql extraLoggers image
        (iterAbsent graphql extraLoggers image n kw)

lemma iterAbsent_succ (gq el img : String) (n : Nat) (kw : TaskDefKwargs) :
    iterAbsent gq el img (n + 1) kw =
      setupAbsentStep gq el img (iterAbsent gq el img n kw) := rfl

lemma setupAbsentStep_containerDefinitions (gq el img : String)
    (kw : TaskDefKwargs) :
    (setupAbsentStep gq el img kw).containerDefinitions =
      some (synthesizeContainerDefs (stdEnvValues gq el) img
        kw.containerDefinitions) := rfl

lemma stdEnvValues_count (gq el : String) (v : EnvVar)
    (hv : v ∈ stdEnvValues gq el) : (stdEnvValues gq el).count v = 1 := by
  simp only [stdEnvValues, List.mem_cons, List.not_mem_nil, or_false] at hv
  rcases hv with rfl | rfl | rfl | rfl | rfl | rfl <;>
    simp [stdEnvValues, List.count_cons, EnvVar.mk.injEq]

lemma synthesizeContainerDefs_cons (ev : List EnvVar) (image : String)
    (x : ContainerDef) (xs : List ContainerDef) :
    synthesizeContainerDefs ev image (some (x :: xs)) =
      forceFirstContainer image (applyEnvValues ev x) ::
        xs.map (applyEnvValues ev) := by
  simp [synthesizeContainerDefs, truthyList]

lemma synthesizeContainerDefs_count (ev : List EnvVar) (image : String)
    (x : ContainerDef) (xs : List ContainerDef) (v : EnvVar) (k : Nat)
    (hv : ev.count v = 1)
    (hall : ∀ cd ∈ x :: xs, (cd.environment.getD []).count v = k) :
    ∀ cd ∈ synthesizeContainerDefs ev image (some (x :: xs)),
      (cd.environment.getD []).count v = k + 1 := by
  intro cd hcd
  rw [synthesizeContainerDefs_cons] at hcd
  rcases List.mem_cons.mp hcd with rfl | hcd
  · rw [(forceFirst_applyEnv_fields ev image x).2.2.2]
    simp [List.count_append, hall x (List.mem_cons_self x xs), hv]
  · rcases List.mem_map.mp hcd with ⟨y, hy, rfl⟩
    rw [applyEnvValues_eq]
    simp [List.count_append, hall y (List.mem_cons_of_mem _ hy), hv]

/-- One entry of the `containerOverrides` list passed to `run_task`. -/
structure ContainerOverride where
  name : String
  environment : List EnvVar
deriving DecidableEq, Repr

/-- The payload of the single `run_task` call issued by `execute`
(fargate_task.py lines 306-310): `overrides=\x7b"containerOverrides": ...\x7d`,
`launchType=self.launch_type`, and `**self.task_run_kwargs`. -/
structure RunTaskCall where
  launchType : String
  containerOverrides : List ContainerOverride
  runKwargs : List (String × String)
deriving DecidableEq, Repr

/-- Embedding of `FargateTaskEnvironment.execute` (fargate_task.py lines
270-310).
`flowRunIdCtx` is `prefect.context.get("flow_run_id", ...)` — `none` when the
key is absent from the ambient context; `agentAuthToken` and `cloudAuthToken`
are `config.cloud.agent.auth_token` and `config.cloud.auth_token` (string
config values, falsy when empty, combined with Python `or`); `flowImage` is
`get_flow_image(flow)`.  The result is the `run_task` payload sent. -/
def execute (flowRunIdCtx : Option String)
    (agentAuthToken cloudAuthToken flowImage launch_type : String)
    (task_run_kwargs : List (String × String)) : RunTaskCall :=
  let flow_run_id := flowRunIdCtx.getD "unknown"
  let container_overrides : List ContainerOverride :=
    [ { name := "flow-container",
        environment :=
          [ ⟨"PREFECT__CLOUD__AUTH_TOKEN",
              if agentAuthToken.isEmpty then cloudAuthToken
              else agentAuthToken⟩,
            ⟨"PREFECT__CONTEXT__FLOW_RUN_ID", flow_run_id⟩,
            ⟨"PREFECT__CONTEXT__IMAGE", flowImage⟩ ] } ]
  { launchType := launch_type, containerOverrides := container_overrides,
    runKwargs := task_run_kwargs }

/-- C5: for every ambient context and configuration, `execute` resolves the
run identifier from the context (`"unknown"` when absent), builds exactly one
container-override entry named `"flow-container"` whose environment carries
the authentication token, that run identifier and the resolved image, and
issues the run call with the configured launch type, all stored run-options,
and that override — the run identifier and image entries are present in the
override whatever the other run options are. -/
theorem execute_run_call (flowRunIdCtx : Option String)
    (agentTok cloudTok img lt : String) (trk : List (String × String)) :
    (execute flowRunIdCtx agentTok cloudTok img lt trk).launchType = lt ∧
    (execute flowRunIdCtx agentTok cloudTok img lt trk).runKwargs = trk ∧
    (execute flowRunIdCtx agentTok cloudTok img lt trk).containerOverrides =
      [ { name := "flow-container",
          environment :=
            [ ⟨"PREFECT__CLOUD__AUTH_TOKEN",
                if agentTok.isEmpty then cloudTok else agentTok⟩,
              ⟨"PREFECT__CONTEXT__FLOW_RUN_ID", flowRunIdCtx.getD "unknown"⟩,
              ⟨"PREFECT__CONTEXT__IMAGE", img⟩ ] } ] :=
  ⟨rfl, rfl, rfl⟩

/-- The `executor` argument of `FargateTaskEnvironment.__init__`: `noExec` is
`None`; `conforming t` is an instance of `prefect.engine.executors.Executor`
(identified by a tag); `nonConforming s` is any other value, `s` being its
string rendering used in the error message. -/
inductive ExecChoice where
  | noExec
  | conforming (tag : String)
  | nonConforming (shown : String)
deriving DecidableEq, Repr

/-- The executor stored on the instance: either the provided conforming
executor, or an instance of the process-wide default executor class built
with the given constructor kwargs. -/
inductive ExecutorVal where
  | provided (tag : String)
  | defaultExec (kwargs : List (String × String))
deriving DecidableEq, Repr

/-- The process environment read by `os.getenv` in `__init__`
(fargate_task.py lines 97-102). -/
structure OsEnviron where
  AWS_ACCESS_KEY_ID : Option String
  AWS_SECRET_ACCESS_KEY : Option String
  AWS_SESSION_TOKEN : Option String
  REGION_NAME : Option String
deriving DecidableEq, Repr

/-- Python `arg or os.getenv(VAR)` for an optional string argument: `None`
and the empty string are falsy, so either falls through to the environment
lookup. -/
def orGetenv (arg : Option String) (envVal : Option String) : Option String :=
  match arg with
  | none => envVal
  | some s => if s.isEmpty then envVal else some s

/-- The fields of a constructed `FargateTaskEnvironment` instance that
`__init__` sets (fargate_task.py lines 95-117), with kwarg values of type
`V`. -/
structure EnvState (V : Type) where
  launch_type : String
  aws_access_key_id : Option String
  aws_secret_access_key : Option String
  aws_session_token : Option String
  region_name : Option String
  task_definition_kwargs : List (String × V)
  task_run_kwargs : List (String × V)
  executor : ExecutorVal
deriving DecidableEq, Repr

/-- The outcome of a successful construction: the instance state and the
warnings emitted along the way. -/
structure InitResult (V : Type) where
  state : EnvState V
  warnings : List String
deriving DecidableEq, Repr

/-- The message of the `TypeError` raised at fargate_task.py lines 114-116. -/
def typeErrorMessage (shown : String) : String :=
  "`executor` must be an `Executor` or `None`, got `" ++ shown ++ "`"

/-- The deprecation warning emitted at fargate_task.py line 108. -/
def deprecationMessage : String :=
  "`executor_kwargs` is deprecated, use `executor` instead"

/-- Embedding of `FargateTaskEnvironment.__init__` (fargate_task.py lines
80-121):
credential fields fall back to environment variables by truthiness, the
passthrough kwargs are partitioned by `_parse_kwargs`, a non-`None`
`executor_kwargs` emits a deprecation warning, a `None` executor is replaced
by the default executor class instantiated with `**(executor_kwargs or \x7b\x7d)`,
and a non-conforming executor raises `TypeError`.  `labels`, `on_start`,
`on_exit` and `metadata` are passed through unchanged to the base-class
initializer and play no part in any claim. -/
def fargateInit {V : Type} (launch_type : String)
    (aws_access_key_id aws_secret_access_key aws_session_token
      region_name : Option String)
    (executor : ExecChoice) (executor_kwargs : Option (List (String × String)))
    (environ : OsEnviron) (kwargs : List (String × V)) :
    Except String (InitResult V) :=
  let akid := orGetenv aws_access_key_id environ.AWS_ACCESS_KEY_ID
  let asak := orGetenv aws_secret_access_key environ.AWS_SECRET_ACCESS_KEY
  let astk := orGetenv aws_session_token environ.AWS_SESSION_TOKEN
  let region := orGetenv region_name environ.REGION_NAME
  let parsed := parse_kwargs kwargs
  let warns := match executor_kwargs with
    | some _ => [deprecationMessage]
    | none => []
  match executor with
  | ExecChoice.noExec =>
      Except.ok ⟨⟨launch_type, akid, asak, astk, region, parsed.1, parsed.2,
        ExecutorVal.defaultExec (executor_kwargs.getD [])⟩, warns⟩
  | ExecChoice.conforming t =>
      Except.ok ⟨⟨launch_type, akid, asak, astk, region, parsed.1, parsed.2,
        ExecutorVal.provided t⟩, warns⟩
  | ExecChoice.nonConforming shown =>
      Except.error (typeErrorMessage shown)

/-- C6: supplying an executor value that is neither `None` nor a conforming
`Executor` instance makes construction raise the `TypeError` and produce no
instance, whereas omitting the executor (`None`) makes construction succeed
with the process-wide default executor substituted. -/
theorem init_executor_type_check {V : Type} (shown lt : String)
    (a b c d : Option String) (ekw : Option (List (String × String)))
    (environ : OsEnviron) (kwargs : List (String × V)) :
    (fargateInit lt a b c d (ExecChoice.nonConforming shown) ekw environ
        kwargs = Except.error (typeErrorMessage shown)) ∧
    ∃ r, fargateInit lt a b c d ExecChoice.noExec ekw environ kwargs =
        Except.ok r ∧
      r.state.executor = ExecutorVal.defaultExec (ekw.getD []) :=
  ⟨rfl, ⟨_, rfl, rfl⟩⟩

/-- C7 counterexample: a construction call that supplies the deprecated
`executor_kwargs` option together with a non-conforming `executor` value does
not complete successfully — the `TypeError` of fargate_task.py lines 114-116
is raised after the warning — so not every call supplying `executor_kwargs`
succeeds. -/
theorem init_deprecated_can_still_fail :
    fargateInit (V := String) "FARGATE" none none none none
        (ExecChoice.nonConforming "bad") (some []) ⟨none, none, none, none⟩
        [] =
      Except.error (typeErrorMessage "bad") := rfl

/-- C7 amended: for every construction call that supplies the deprecated
`executor_kwargs` option (any non-`None` value) and whose `executor` argument
is absent or a conforming executor, construction emits exactly the non-fatal
deprecation warning and completes successfully, with the same derived
task-definition and task-run mappings as the identical call without
`executor_kwargs`. -/
theorem init_deprecated_warns_and_succeeds {V : Type} (lt t : String)
    (a b c d : Option String) (ekw : List (String × String))
    (environ : OsEnviron) (kwargs : List (String × V)) :
    (∃ r r0,
      fargateInit lt a b c d ExecChoice.noExec (some ekw) environ kwargs =
        Except.ok r ∧
      r.warnings = [deprecationMessage] ∧
      fargateInit lt a b c d ExecChoice.noExec none environ kwargs =
        Except.ok r0 ∧
      r0.warnings = [] ∧
      r.state.task_definition_kwargs = r0.state.task_definition_kwargs ∧
      r.state.task_run_kwargs = r0.state.task_run_kwargs) ∧
    (∃ r r0,
      fargateInit lt a b c d (ExecChoice.conforming t) (some ekw) environ
          kwargs = Except.ok r ∧
      r.warnings = [deprecationMessage] ∧
      fargateInit lt a b c d (ExecChoice.conforming t) none environ kwargs =
        Except.ok r0 ∧
      r0.warnings = [] ∧
      r.state.task_definition_kwargs = r0.state.task_definition_kwargs ∧
      r.state.task_run_kwargs = r0.state.task_run_kwargs) :=
  ⟨⟨_, _, rfl, rfl, rfl, rfl, rfl, rfl⟩, ⟨_, _, rfl, rfl, rfl, rfl, rfl, rfl⟩⟩

/-- C8: credential and region fallback is by truthiness, not presence — a
construction call supplying the empty string for each of the four
credential/region arguments stores exactly the environment-variable values,
and returns the very same instance as the call that omits the arguments
(`None`) altogether. -/
theorem init_credential_truthiness_fallback {V : Type} (lt : String)
    (environ : OsEnviron) (kwargs : List (String × V)) :
    ∃ r, fargateInit lt (some "") (some "") (some "") (some "")
        ExecChoice.noExec none environ kwargs = Except.ok r ∧
      r.state.aws_access_key_id = environ.AWS_ACCESS_KEY_ID ∧
      r.state.aws_secret_access_key = environ.AWS_SECRET_ACCESS_KEY ∧
      r.state.aws_session_token = environ.AWS_SESSION_TOKEN ∧
      r.state.region_name = environ.REGION_NAME ∧
      fargateInit lt none none none none ExecChoice.noExec none environ
          kwargs = Except.ok r :=
  ⟨_, rfl, rfl, rfl, rfl, rfl, rfl⟩

/-- C10: with no executor supplied, the deprecated `executor_kwargs` value is
forwarded as the constructor arguments of the default executor factory — the
stored executor is the default executor built from `executor_kwargs`, an empty
mapping when `executor_kwargs` is `None` too. -/
theorem init_default_executor_gets_kwargs {V : Type} (lt : String)
    (a b c d : Option String) (ekw : List (String × String))
    (environ : OsEnviron) (kwargs : List (String × V)) :
    (∃ r, fargateInit lt a b c d ExecChoice.noExec (some ekw) environ kwargs =
        Except.ok r ∧
      r.state.executor = ExecutorVal.defaultExec ekw) ∧
    ∃ r, fargateInit lt a b c d ExecChoice.noExec none environ kwargs =
        Except.ok r ∧
      r.state.executor = ExecutorVal.defaultExec [] :=
  ⟨⟨_, rfl, rfl⟩, ⟨_, rfl, rfl⟩⟩

/-- C9: the container synthesis of `setup` is not idempotent on the stored
task-definition mapping: starting from a fresh environment (no
`containerDefinitions`), after `n + 1` runs of the definition-absent branch
every container entry's environment list contains exactly `n + 1` copies of
each standard environment variable, because each run appends the full
`env_values` list to every container's environment while preserving the
entries already there. -/
theorem setup_env_accumulates (gq el img : String) (fam : Option String)
    (restKw : List (String × String)) (n : Nat) (v : EnvVar)
    (hv : v ∈ stdEnvValues gq el) (cd : ContainerDef)
    (hcd : cd ∈ ((iterAbsent gq el img (n + 1)
      ⟨fam, none, restKw⟩).containerDefinitions.getD [])) :
    (cd.environment.getD []).count v = n + 1 := by
  suffices h : ∃ x xs,
      (iterAbsent gq el img (n + 1)
          ⟨fam, none, restKw⟩).containerDefinitions = some (x :: xs) ∧
        ∀ cd ∈ x :: xs, (cd.environment.getD []).count v = n + 1 by
    obtain ⟨x, xs, hx, hall⟩ := h
    rw [hx] at hcd
    exact hall cd hcd
  clear hcd
  induction n with
  | zero =>
      refine ⟨forceFirstContainer img
        (applyEnvValues (stdEnvValues gq el) emptyContainer), [], rfl, ?_⟩
      intro cd hcd
      rcases List.mem_cons.mp hcd with rfl | hcd
      · rw [(forceFirst_applyEnv_fields (stdEnvValues gq el) img
          emptyContainer).2.2.2]
        simpa [emptyContainer] using stdEnvValues_count gq el v hv
      · simp at hcd
  | succ n ih =>
      obtain ⟨x, xs, hx, hall⟩ := ih
      have hstep : (iterAbsent gq el img (n + 1 + 1)
          ⟨fam, none, restKw⟩).containerDefinitions =
            some (synthesizeContainerDefs (stdEnvValues gq el) img
              (some (x :: xs))) := by
        rw [iterAbsent_succ, setupAbsentStep_containerDefinitions, hx]
      obtain ⟨y, ys, hy⟩ : ∃ y ys,
          synthesizeContainerDefs (stdEnvValues gq el) img (some (x :: xs)) =
            y :: ys :=
        ⟨_, _, synthesizeContainerDefs_cons (stdEnvValues gq el) img x xs⟩
      refine ⟨y, ys, by rw [hstep, hy], ?_⟩
      have := synthesizeContainerDefs_count (stdEnvValues gq el) img x xs v
        (n + 1) (stdEnvValues_count gq el v hv) hall
      rw [hy] at this
      exact this

/-- Witness for `setup_env_accumulates` at `n = 0`: after one run of the
definition-absent branch from a fresh state, the single synthesized container
holds exactly one copy of the standard variable
`PREFECT__CLOUD__USE_LOCAL_SECRETS`. -/
theorem setup_env_accumulates_witness :
    ((⟨"PREFECT__CLOUD__USE_LOCAL_SECRETS", "false"⟩ : EnvVar) ∈
      stdEnvValues "gq" "el") ∧
    ((⟨some "flow-container", some "img", some flowContainerCommand,
        some (stdEnvValues "gq" "el")⟩ : ContainerDef) ∈
      ((iterAbsent "gq" "el" "img" (0 + 1)
        ⟨none, none, []⟩).containerDefinitions.getD [])) ∧
    (((⟨some "flow-container", some "img", some flowContainerCommand,
        some (stdEnvValues "gq" "el")⟩ : ContainerDef).environment.getD
          []).count
      (⟨"PREFECT__CLOUD__USE_LOCAL_SECRETS", "false"⟩ : EnvVar) = 0 + 1) :=
  ⟨by decide, by decide,
    setup_env_accumulates "gq" "el" "img" none [] 0
      ⟨"PREFECT__CLOUD__USE_LOCAL_SECRETS", "false"⟩ (by decide)
      ⟨some "flow-container", some "img", some flowContainerCommand,
        some (stdEnvValues "gq" "el")⟩ (by decide)⟩

end FargateTask
